import Mathlib

/-!
Verification of the SCADA flow-meter web service, embedding the two
near-duplicate variants of the repository: the development variant
(`app.py`, pymssql) and the production variant (`application.py`, pyodbc).

The service-level logic — placeholder-laden payload coercion
(`parse_float`), device-id validation, dynamic query construction,
pagination, and response shaping — is embedded shallowly below.  The HTTP
layer hands each endpoint an already-decoded JSON object; the database is
represented by an explicit trace of store events (connection, parameterized
statement executions) together with a relational semantics for the
statements the code generates (filter, sort descending, offset/fetch).

Modelling conventions:
* Python floats are `PyFloat`: an exact rational for finite values plus
  infinity and NaN constructors; IEEE rounding is irrelevant to the
  properties below.  Python's `float(str)` grammar (sign, `inf`/`infinity`/
  `nan` case-insensitively, decimal digits with optional fraction,
  exponent, and underscore digit separators, ASCII digits) is implemented
  by `parseFloatChars`.
* `datetime.fromisoformat` (3.7–3.10 grammar `YYYY-MM-DD[*HH[:MM[:SS
  [.fff[fff]]]][±HH:MM]]`) is modelled by `pyFromIso`, mapping a valid
  string to an order-reflecting numeric key (not epoch seconds — none of
  the verified properties depend on actual epoch arithmetic, only on parse
  success/failure and on the key being carried into the query predicate).
* SQL statement texts are the ones the code builds, with the multi-line
  f-strings normalized to single-line whitespace.
-/

namespace Scada

/-- JSON values as delivered to the endpoints by the HTTP layer. -/
inductive JsonValue where
  | null
  | str : String → JsonValue
  | num : ℚ → JsonValue
  | bool : Bool → JsonValue
  | arr : List JsonValue → JsonValue
  | obj : List (String × JsonValue) → JsonValue

/-- Python truthiness of a JSON value, as tested by `if not value:`. -/
def pyTruthy : JsonValue → Bool
  | JsonValue.null => false
  | JsonValue.str s => if s = "" then false else true
  | JsonValue.num q => if q = 0 then false else true
  | JsonValue.bool b => b
  | JsonValue.arr l => match l with | [] => false | _ => true
  | JsonValue.obj l => match l with | [] => false | _ => true

/-- `data.get(key)`: absent keys and JSON `null` both give Python `None`,
merged here into `JsonValue.null`. -/
def jget (data : List (String × JsonValue)) (k : String) : JsonValue :=
  (data.lookup k).getD JsonValue.null

/-- A Python float value: finite (exact rational), signed infinity, or NaN. -/
inductive PyFloat where
  | finite : ℚ → PyFloat
  | inf : Bool → PyFloat
  | nan : PyFloat
deriving DecidableEq

/-- Finiteness discriminator on `PyFloat`. -/
def PyFloat.isFinite : PyFloat → Bool
  | PyFloat.finite _ => true
  | _ => false

/-- Python exception classes relevant to `parse_float`'s `except` clause. -/
inductive PyErr where
  | valueError
  | typeError
  | otherError
deriving DecidableEq

/-- ASCII whitespace stripped by `str.strip()`. -/
def pyWs (c : Char) : Bool :=
  c = ' ' || c = '\t' || c = '\n' || c = '\r' || c = '\x0b' || c = '\x0c'

/-- `value.replace('$$', '')`: remove each non-overlapping occurrence of the
two-character placeholder, scanning left to right. -/
def removePh : List Char → List Char
  | '$' :: '$' :: rest => removePh rest
  | c :: rest => c :: removePh rest
  | [] => []

/-- `str.strip()` on a character list. -/
def stripEnds (l : List Char) : List Char :=
  ((l.dropWhile pyWs).reverse.dropWhile pyWs).reverse

/-- `value.replace('$$', '').strip()` — the cleaning step of `parse_float`. -/
def pyClean (s : String) : String :=
  String.mk (stripEnds (removePh s.data))

/-- Optional leading sign of a numeric literal. -/
def signSplit : List Char → Bool × List Char
  | '+' :: r => (false, r)
  | '-' :: r => (true, r)
  | l => (false, l)

/-- Maximal run of ASCII digits with Python's underscore separators
(an underscore is consumed only when it sits between two digits). -/
def grabDigits : List Char → List ℕ × List Char
  | [] => ([], [])
  | c :: '_' :: c2 :: rest2 =>
    if c.isDigit then
      if c2.isDigit then
        match grabDigits (c2 :: rest2) with
        | (ds, r) => ((c.toNat - 48) :: ds, r)
      else ((c.toNat - 48) :: [], '_' :: c2 :: rest2)
    else ([], c :: '_' :: c2 :: rest2)
  | c :: rest =>
    if c.isDigit then
      match grabDigits rest with
      | (ds, r) => ((c.toNat - 48) :: ds, r)
    else ([], c :: rest)

/-- Value of a digit list read in base 10. -/
def digitsVal (ds : List ℕ) : ℕ :=
  ds.foldl (fun a d => a * 10 + d) 0

/-- Value of a decimal mantissa with integer digits `ip` and fraction
digits `fp`. -/
def mantVal (ip fp : List ℕ) : ℚ :=
  (digitsVal (ip ++ fp) : ℚ) / (10 : ℚ) ^ fp.length

/-- Optional exponent part of a float literal; the remainder must be fully
consumed. -/
def parseExpPart (m : ℚ) : List Char → Option ℚ
  | [] => some m
  | c :: r =>
    if c = 'e' ∨ c = 'E' then
      match signSplit r with
      | (eneg, r2) =>
        match grabDigits r2 with
        | (eds, r3) =>
          if eds = [] ∨ r3 ≠ [] then none
          else some (m * (10 : ℚ) ^ (if eneg then -(digitsVal eds : ℤ) else (digitsVal eds : ℤ)))
    else none

/-- Decimal part of a float literal (after the sign): digits, optional
point and fraction, optional exponent. -/
def parseDecFrom (l : List Char) : Option ℚ :=
  match grabDigits l with
  | (ip, r1) =>
    match r1 with
    | '.' :: r =>
      match grabDigits r with
      | (fp, r2) =>
        if ip = [] ∧ fp = [] then none
        else parseExpPart (mantVal ip fp) r2
    | _ =>
      if ip = [] then none
      else parseExpPart (mantVal ip []) r1

/-- The grammar accepted by Python's `float(str)` on an already-stripped
string: optional sign, then `inf`/`infinity`/`nan` (case-insensitive) or a
decimal literal. -/
def parseFloatChars (l : List Char) : Option PyFloat :=
  match signSplit l with
  | (neg, r) =>
    if r.map Char.toLower = "inf".data ∨ r.map Char.toLower = "infinity".data then
      some (PyFloat.inf neg)
    else if r.map Char.toLower = "nan".data then
      some PyFloat.nan
    else
      match parseDecFrom r with
      | some q => some (PyFloat.finite (if neg then -q else q))
      | none => none

/-- `float(cleaned)`: raises `ValueError` exactly when the literal grammar
fails. -/
def pyFloatFn (s : String) : Except PyErr PyFloat :=
  match parseFloatChars s.data with
  | some f => Except.ok f
  | none => Except.error PyErr.valueError

/-- `parse_float` exactly as both variants define it: `None`/non-string →
`None`; strip placeholders and whitespace; empty → `None`; then
`try: float(...) except (ValueError, TypeError): None`. -/
def parse_float (value : JsonValue) : Except PyErr (Option PyFloat) :=
  match value with
  | JsonValue.str s =>
    if pyClean s = "" then Except.ok none
    else
      match pyFloatFn (pyClean s) with
      | Except.ok f => Except.ok (some f)
      | Except.error e =>
        if e = PyErr.valueError ∨ e = PyErr.typeError then Except.ok none
        else Except.error e
  | _ => Except.ok none

/-- The coercion as the specification words it: an absent or non-textual
value is absent; every occurrence of the placeholder token is removed and
whitespace trimmed; an empty remainder is absent; otherwise a float parse
is attempted and failure gives absent, never an error. -/
def coerceSpec : JsonValue → Option PyFloat
  | JsonValue.str s =>
    if pyClean s = "" then none
    else parseFloatChars (pyClean s).data
  | _ => none

/-- The six measurement suffixes of one channel, in the order the code
writes them. -/
def fieldSuffixes : List String :=
  ["MassFlow", "Masstotal", "VolumeFlow", "Volumetotal", "Temp", "Density"]

/-- The six field names of channel `i`. -/
def chanFields (i : ℕ) : List String :=
  fieldSuffixes.map (fun suf => "FT" ++ toString i ++ suf)

/-- The 54 measurement field names FT1..FT9 × six suffixes, in the order
both variants enumerate them (`app.py` writes them literally, the
production variant loops `for i in range(1, 10)`). -/
def fieldNames : List String :=
  (List.range' 1 9).flatMap chanFields

/-- Sequential construction of `parsed_data`: one `parse_float` call per
field, propagating any exception (the surrounding `try` of the endpoint). -/
def normFieldsGo (data : List (String × JsonValue)) :
    List String → Except PyErr (List (String × Option PyFloat))
  | [] => Except.ok []
  | k :: ks =>
    match parse_float (jget data k) with
    | Except.error e => Except.error e
    | Except.ok v =>
      match normFieldsGo data ks with
      | Except.error e => Except.error e
      | Except.ok rest => Except.ok ((k, v) :: rest)

/-- The coerced measurement fields of a payload. -/
def normalizeFields (data : List (String × JsonValue)) :
    Except PyErr (List (String × Option PyFloat)) :=
  normFieldsGo data fieldNames

/-- The value `parse_float` yields for a field, exceptions mapped to
absent (used only to state results; `parse_float` in fact never raises). -/
def parseOk (data : List (String × JsonValue)) (k : String) : Option PyFloat :=
  match parse_float (jget data k) with
  | Except.ok v => v
  | Except.error _ => none

/-- The coerced field list as a total function of the payload. -/
def fieldVals (data : List (String × JsonValue)) : List (String × Option PyFloat) :=
  fieldNames.map (fun k => (k, parseOk data k))

/-- The cleaned text of a raw field value (empty for non-strings). -/
def cleanOf : JsonValue → String
  | JsonValue.str s => pyClean s
  | _ => ""

/-- Whether a cleaned string spells one of the special float literals
(optional sign, then `inf`, `infinity` or `nan` in any case). -/
def isSpecialLit (s : String) : Bool :=
  match signSplit s.data with
  | (_, r) =>
    decide (r.map Char.toLower = "inf".data) ||
      decide (r.map Char.toLower = "infinity".data) ||
      decide (r.map Char.toLower = "nan".data)

/-- Parse exactly `n` ASCII digits into a number. -/
def parseNDigitsGo : ℕ → ℕ → List Char → Option (ℕ × List Char)
  | 0, acc, l => some (acc, l)
  | n + 1, acc, c :: l =>
    if c.isDigit then parseNDigitsGo n (acc * 10 + (c.toNat - 48)) l else none
  | _ + 1, _, [] => none

/-- Parse exactly `n` ASCII digits. -/
def parseNDigits (n : ℕ) (l : List Char) : Option (ℕ × List Char) :=
  parseNDigitsGo n 0 l

/-- Expect one specific character. -/
def expectCh (c : Char) : List Char → Option (List Char)
  | x :: r => if x = c then some r else none
  | [] => none

/-- Maximal plain digit run (no underscores), for ISO fractions. -/
def plainDigits : List Char → List ℕ × List Char
  | [] => ([], [])
  | c :: r =>
    if c.isDigit then
      match plainDigits r with
      | (ds, rr) => ((c.toNat - 48) :: ds, rr)
    else ([], c :: r)

/-- Gregorian leap-year test. -/
def isLeap (y : ℕ) : Bool :=
  (y % 4 = 0 && y % 100 ≠ 0) || y % 400 = 0

/-- Days in a month, as validated by `datetime`. -/
def daysInMonth (y m : ℕ) : ℕ :=
  if m = 2 then (if isLeap y then 29 else 28)
  else if m = 4 ∨ m = 6 ∨ m = 9 ∨ m = 11 then 30
  else 31

/-- Split a time string at the first `+`/`-`, which begins the UTC offset
(CPython splits the time-of-day part this way). -/
def splitAtSign : List Char → List Char × List Char
  | [] => ([], [])
  | c :: r =>
    if c = '+' ∨ c = '-' then ([], c :: r)
    else
      match splitAtSign r with
      | (a, b) => (c :: a, b)

/-- Time-of-day `HH[:MM[:SS[.fff[fff]]]]` mapped to a numeric key
(`HH*10000 + MM*100 + SS + fraction`); the whole input must be consumed. -/
def parseTimeChars (l : List Char) : Option ℚ := do
  let (h, r1) ← parseNDigits 2 l
  if 23 < h then none
  else
    match r1 with
    | [] => some ((h * 10000 : ℕ) : ℚ)
    | ':' :: r2 => do
      let (mi, r3) ← parseNDigits 2 r2
      if 59 < mi then none
      else
        match r3 with
        | [] => some ((h * 10000 + mi * 100 : ℕ) : ℚ)
        | ':' :: r4 => do
          let (s, r5) ← parseNDigits 2 r4
          if 59 < s then none
          else
            match r5 with
            | [] => some ((h * 10000 + mi * 100 + s : ℕ) : ℚ)
            | '.' :: r6 =>
              match plainDigits r6 with
              | (ds, r7) =>
                if r7 = [] ∧ (ds.length = 3 ∨ ds.length = 6) then
                  some (((h * 10000 + mi * 100 + s : ℕ) : ℚ) +
                    (digitsVal ds : ℚ) / (10 : ℚ) ^ ds.length)
                else none
            | _ => none
        | _ => none
    | _ => none

/-- UTC offset `±HH:MM` mapped to a signed key on the same scale as
`parseTimeChars`; an empty input means no offset. -/
def parseOffsetChars : List Char → Option ℚ
  | [] => some 0
  | c :: r =>
    if c = '+' ∨ c = '-' then
      match parseNDigits 2 r with
      | none => none
      | some (hh, r1) =>
        match expectCh ':' r1 with
        | none => none
        | some r2 =>
          match parseNDigits 2 r2 with
          | none => none
          | some (mm, r3) =>
            if r3 = [] ∧ hh ≤ 23 ∧ mm ≤ 59 then
              some (if c = '-' then -((hh * 10000 + mm * 100 : ℕ) : ℚ)
                    else ((hh * 10000 + mm * 100 : ℕ) : ℚ))
            else none
    else none

/-- Model of `datetime.fromisoformat` (3.7–3.10): `YYYY-MM-DD`, optionally
one separator character and a time of day with optional UTC offset.  A
valid string maps to the key `(Y*10000+M*100+D)*1000000 + timeKey -
offsetKey`; malformed or out-of-range strings map to `none`. -/
def pyFromIsoChars (l : List Char) : Option ℚ := do
  let (y, r1) ← parseNDigits 4 l
  let r2 ← expectCh '-' r1
  let (mo, r3) ← parseNDigits 2 r2
  let r4 ← expectCh '-' r3
  let (d, r5) ← parseNDigits 2 r4
  if mo < 1 ∨ 12 < mo ∨ d < 1 ∨ daysInMonth y mo < d then none
  else
    match r5 with
    | [] => some (((y * 10000 + mo * 100 + d : ℕ) : ℚ) * 1000000)
    | _ :: r6 =>
      match splitAtSign r6 with
      | (tpart, opart) => do
        let tk ← parseTimeChars tpart
        let ok ← parseOffsetChars opart
        some (((y * 10000 + mo * 100 + d : ℕ) : ℚ) * 1000000 + tk - ok)

/-- `datetime.fromisoformat` on a string. -/
def pyFromIso (s : String) : Option ℚ :=
  pyFromIsoChars s.data

/-- `date_str.replace('Z', '+00:00')`: every `Z` becomes `+00:00`. -/
def replaceZchars : List Char → List Char
  | [] => []
  | c :: r =>
    if c = 'Z' then '+' :: '0' :: '0' :: ':' :: '0' :: '0' :: replaceZchars r
    else c :: replaceZchars r

/-- `date_str.replace('Z', '+00:00')` on a string. -/
def replaceZ (s : String) : String :=
  String.mk (replaceZchars s.data)

/-- One persisted reading, restricted to the columns the query paths
inspect (identifier, device, creation key). -/
structure Row where
  id : String
  deviceId : String
  createdAt : ℚ
deriving DecidableEq

/-- A bound SQL parameter. -/
inductive SqlV where
  | s : String → SqlV
  | i : Int → SqlV
  | ts : ℚ → SqlV
  | j : JsonValue → SqlV
  | f : Option PyFloat → SqlV

/-- One interaction with the backing store: opening a connection, or
executing one parameterized statement. -/
inductive StoreEvent where
  | connect
  | query : String → List SqlV → StoreEvent

/-- The SQL texts of a trace, in order. -/
def eventsSqlTexts (ev : List StoreEvent) : List String :=
  ev.filterMap (fun e =>
    match e with
    | StoreEvent.query s _ => some s
    | StoreEvent.connect => none)

/-- One WHERE predicate of the development query builder. -/
inductive Cond where
  | deviceEq : String → Cond
  | createdGe : ℚ → Cond
  | createdLe : ℚ → Cond

/-- The SQL text fragment of a predicate — values never appear in it. -/
def Cond.sql : Cond → String
  | Cond.deviceEq _ => "DeviceId = %s"
  | Cond.createdGe _ => "CreatedAt >= %s"
  | Cond.createdLe _ => "CreatedAt <= %s"

/-- The bound parameter of a predicate. -/
def Cond.param : Cond → SqlV
  | Cond.deviceEq d => SqlV.s d
  | Cond.createdGe t => SqlV.ts t
  | Cond.createdLe t => SqlV.ts t

/-- Relational semantics of a predicate on a row. -/
def Cond.eval (c : Cond) (r : Row) : Bool :=
  match c with
  | Cond.deviceEq d => decide (r.deviceId = d)
  | Cond.createdGe t => decide (t ≤ r.createdAt)
  | Cond.createdLe t => decide (r.createdAt ≤ t)

/-- Insert a row into a list kept sorted by creation time descending. -/
def insertDesc (r : Row) : List Row → List Row
  | [] => [r]
  | x :: xs => if x.createdAt ≤ r.createdAt then r :: x :: xs else x :: insertDesc r xs

/-- `ORDER BY CreatedAt DESC`: sort rows by creation time, newest first. -/
def sortDesc : List Row → List Row
  | [] => []
  | r :: rs => insertDesc r (sortDesc rs)

/-- Query arguments of the development `GET /api/flowmeter/data`. -/
structure GetArgs where
  device_id : Option String
  start_date : Option String
  end_date : Option String
  page : Int
  page_size : Int

/-- `if page < 1: page = 1`. -/
def effPage (p : Int) : Int :=
  if p < 1 then 1 else p

/-- `if page_size < 1 or page_size > 1000: page_size = 100`. -/
def effPageSize (ps : Int) : Int :=
  if ps < 1 ∨ 1000 < ps then 100 else ps

/-- The production variant's `limit = min(int(...), 1000)`. -/
def prodLimit (l : Int) : Int :=
  min l 1000

/-- Message of the start-date validation failure. -/
def startMsg : String := "Invalid start_date format. Use ISO format."

/-- Message of the end-date validation failure. -/
def endMsg : String := "Invalid end_date format. Use ISO format."

/-- The device predicate: added only when the parameter is truthy. -/
def deviceConds (o : Option String) : List Cond :=
  match o with
  | some d => if d = "" then [] else [Cond.deviceEq d]
  | none => []

/-- One date filter: skipped when absent or empty, parsed via
`fromisoformat` after the `Z` replacement, validation failure aborts with
the given message. -/
def dateFilter (mk : ℚ → Cond) (msg : String) (o : Option String) :
    Except String (List Cond) :=
  match o with
  | none => Except.ok []
  | some s =>
    if s = "" then Except.ok []
    else
      match pyFromIso (replaceZ s) with
      | some t => Except.ok [mk t]
      | none => Except.error msg

/-- The development WHERE-clause builder: device, then start, then end;
the first malformed date aborts. -/
def buildQuery (args : GetArgs) : Except String (List Cond) :=
  match dateFilter Cond.createdGe startMsg args.start_date with
  | Except.error e => Except.error e
  | Except.ok sc =>
    match dateFilter Cond.createdLe endMsg args.end_date with
    | Except.error e => Except.error e
    | Except.ok ec => Except.ok (deviceConds args.device_id ++ sc ++ ec)

/-- `" AND ".join(conds)`, prefixed by `WHERE` when non-empty. -/
def joinWhere (parts : List String) : String :=
  if String.intercalate " AND " parts = "" then ""
  else "WHERE " ++ String.intercalate " AND " parts

/-- Text of the development COUNT statement. -/
def countSqlOf (conds : List Cond) : String :=
  "SELECT COUNT(*) as count FROM FlowMeterData " ++ joinWhere (conds.map Cond.sql)

/-- Text of the development paginated SELECT statement. -/
def dataSqlOf (conds : List Cond) : String :=
  "SELECT * FROM FlowMeterData " ++ joinWhere (conds.map Cond.sql) ++
    " ORDER BY CreatedAt DESC OFFSET %s ROWS FETCH NEXT %s ROWS ONLY"

/-- Successful response of the development query endpoint. -/
structure GetOk where
  totalCount : ℕ
  page : Int
  pageSize : Int
  data : List Row
deriving DecidableEq

/-- Result of the development query endpoint. -/
inductive GetResult where
  | ok : GetOk → GetResult
  | badRequest : String → GetResult
deriving DecidableEq

/-- The rows carried by a query result (none on a validation failure). -/
def GetResult.rows : GetResult → List Row
  | GetResult.ok g => g.data
  | GetResult.badRequest _ => []

/-- The development `GET /api/flowmeter/data`: normalize pagination,
connect, build the WHERE clause (malformed dates abort with 400 after the
connection was already opened), then run the COUNT and the ordered,
paginated SELECT. -/
def getData (store : List Row) (args : GetArgs) : List StoreEvent × GetResult :=
  match buildQuery args with
  | Except.error msg => ([StoreEvent.connect], GetResult.badRequest msg)
  | Except.ok conds =>
    let params := conds.map Cond.param
    let matched := store.filter (fun r => conds.all (fun c => Cond.eval c r))
    let off : Int := (effPage args.page - 1) * effPageSize args.page_size
    let rows := ((sortDesc matched).drop off.toNat).take (effPageSize args.page_size).toNat
    ([StoreEvent.connect,
      StoreEvent.query (countSqlOf conds) params,
      StoreEvent.query (dataSqlOf conds)
        (params ++ [SqlV.i off, SqlV.i (effPageSize args.page_size)])],
     GetResult.ok ⟨matched.length, effPage args.page, effPageSize args.page_size, rows⟩)

/-- Successful response of the production query endpoint. -/
structure ProdGetOk where
  data : List Row
  count : ℕ
deriving DecidableEq

/-- The production no-filter SELECT. -/
def prodNoFilter (store : List Row) (limit : Int) : List StoreEvent × ProdGetOk :=
  let rows := (sortDesc store).take limit.toNat
  ([StoreEvent.connect,
    StoreEvent.query "SELECT TOP (?) * FROM FlowMeterData ORDER BY CreatedAt DESC"
      [SqlV.i limit]],
   ⟨rows, rows.length⟩)

/-- The production `GET /api/flowmeter/data`: limit clamped from above to
1000, optional truthy device filter, newest first. -/
def prodGetData (store : List Row) (device_id : Option String) (limitRaw : Int) :
    List StoreEvent × ProdGetOk :=
  match device_id with
  | some d =>
    if d = "" then prodNoFilter store (prodLimit limitRaw)
    else
      let matched := store.filter (fun r => decide (r.deviceId = d))
      let rows := (sortDesc matched).take (prodLimit limitRaw).toNat
      ([StoreEvent.connect,
        StoreEvent.query
          "SELECT TOP (?) * FROM FlowMeterData WHERE DeviceId = ? ORDER BY CreatedAt DESC"
          [SqlV.i (prodLimit limitRaw), SqlV.s d]],
       ⟨rows, rows.length⟩)
  | none => prodNoFilter store (prodLimit limitRaw)

/-- Outcome of an upload endpoint. -/
inductive UploadResult where
  | ok : List (String × JsonValue) → UploadResult
  | badRequest : String → UploadResult
  | serverError : UploadResult

/-- Success discriminator. -/
def UploadResult.isOk : UploadResult → Bool
  | UploadResult.ok _ => true
  | _ => false

/-- Validation-failure discriminator. -/
def UploadResult.isBadRequest : UploadResult → Bool
  | UploadResult.badRequest _ => true
  | _ => false

/-- Look a key up in the success body (none on any failure). -/
def UploadResult.bodyLookup : UploadResult → String → Option JsonValue
  | UploadResult.ok b, k => b.lookup k
  | _, _ => none

/-- The development fixed-width insert text (56 columns, all values bound;
whitespace normalized from the multi-line literal in the code). -/
def appInsertSql : String :=
  "INSERT INTO FlowMeterData (" ++
    String.intercalate ", " ("Id" :: "DeviceId" :: fieldNames) ++
    ") VALUES (" ++ String.intercalate ", " (List.replicate 56 "%s") ++ ")"

/-- Success body of the development upload. -/
def appUploadBody (gid : String) (dv : JsonValue) (ts : String) :
    List (String × JsonValue) :=
  [("success", JsonValue.bool true),
   ("message", JsonValue.str "Data received and stored successfully"),
   ("id", JsonValue.str gid),
   ("device_id", dv),
   ("timestamp", JsonValue.str ts)]

/-- The development `POST /api/flowmeter/upload`: empty body and falsy
device id are rejected before any store interaction; otherwise all 54
fields are coerced and one fixed-shape parameterized insert runs.  `gid`
is the freshly generated UUID, `ts` the response timestamp. -/
def upload (gid ts : String) (data : List (String × JsonValue)) :
    List StoreEvent × UploadResult :=
  match data with
  | [] => ([], UploadResult.badRequest "No JSON data received")
  | _ :: _ =>
    if pyTruthy (jget data "deviceid") then
      match normalizeFields data with
      | Except.error _ => ([], UploadResult.serverError)
      | Except.ok fields =>
        ([StoreEvent.connect,
          StoreEvent.query appInsertSql
            (SqlV.s gid :: SqlV.j (jget data "deviceid") ::
              fields.map (fun kv => SqlV.f kv.2))],
         UploadResult.ok (appUploadBody gid (jget data "deviceid") ts))
    else ([], UploadResult.badRequest "Device ID is required")

/-- Columns of the production dynamic insert: `DeviceId` plus exactly the
present (non-null) coerced fields, in enumeration order. -/
def prodCols (fields : List (String × Option PyFloat)) : List String :=
  "DeviceId" :: (fields.filter (fun kv => kv.2.isSome)).map (fun kv => kv.1)

/-- Text of the production dynamic insert — built from fixed column names
and `?` markers only. -/
def prodInsertSql (fields : List (String × Option PyFloat)) : String :=
  "INSERT INTO FlowMeterData (" ++ String.intercalate ", " (prodCols fields) ++
    ") VALUES (" ++ String.intercalate ", " ((prodCols fields).map (fun _ => "?")) ++ ")"

/-- Bound values of the production dynamic insert. -/
def prodVals (dv : JsonValue) (fields : List (String × Option PyFloat)) : List SqlV :=
  SqlV.j dv :: (fields.filter (fun kv => kv.2.isSome)).map (fun kv => SqlV.f kv.2)

/-- Success body of the production upload — note: no record id. -/
def prodUploadBody (dv : JsonValue) (ts : String) : List (String × JsonValue) :=
  [("success", JsonValue.bool true),
   ("message", JsonValue.str "Data stored successfully in Azure SQL Database"),
   ("device_id", dv),
   ("timestamp", JsonValue.str ts),
   ("environment", JsonValue.str "production")]

/-- The production `POST /api/flowmeter/upload`: same validation as the
development variant, then a dynamic column-list insert of the present
fields; the record id is left to the store's `NEWID()` default. -/
def prodUpload (ts : String) (data : List (String × JsonValue)) :
    List StoreEvent × UploadResult :=
  match data with
  | [] => ([], UploadResult.badRequest "No JSON data received")
  | _ :: _ =>
    if pyTruthy (jget data "deviceid") then
      match normalizeFields data with
      | Except.error _ => ([], UploadResult.serverError)
      | Except.ok fields =>
        ([StoreEvent.connect,
          StoreEvent.query (prodInsertSql fields) (prodVals (jget data "deviceid") fields)],
         UploadResult.ok (prodUploadBody (jget data "deviceid") ts))
    else ([], UploadResult.badRequest "Device ID is required")

/-- Truthiness of the optional device filter parameter. -/
def devPresentO (o : Option String) : Bool :=
  match o with
  | some d => if d = "" then false else true
  | none => false

/-- Whether an optional date filter parameter contributes a predicate
(present, non-empty and well-formed). -/
def datePresentO (o : Option String) : Bool :=
  match o with
  | none => false
  | some s => if s = "" then false else (pyFromIso (replaceZ s)).isSome

/-- Rows compared newest-first: the first argument was created no earlier
than the second. -/
def rowGe (a b : Row) : Prop :=
  b.createdAt ≤ a.createdAt

/-- The spec's NaN counterexample payload: a syntactically valid device id
together with a mass-flow field whose text spells `nan`. -/
def dataNan : List (String × JsonValue) :=
  [("deviceid", JsonValue.str "FM-7"), ("FT1MassFlow", JsonValue.str "nan")]

/-- The worked example payload of the specification. -/
def dataGood : List (String × JsonValue) :=
  [("deviceid", JsonValue.str "FM-7"),
   ("FT1MassFlow", JsonValue.str "$$12.5$$"),
   ("FT1Temp", JsonValue.str "$$   $$")]

/-- A two-row store used to exercise the query path. -/
def w8store : List Row :=
  [⟨"i1", "D", 5⟩, ⟨"i2", "E", 7⟩]

/-- Query arguments filtering on device `D`. -/
def w8args : GetArgs :=
  ⟨some "D", none, none, 1, 100⟩

/-- `parse_float` never raises and agrees with the specification's
step-by-step description of the coercion. -/
theorem parse_float_eq (v : JsonValue) : parse_float v = Except.ok (coerceSpec v) := by
  cases v with
  | str s =>
    simp only [parse_float, coerceSpec, pyFloatFn]
    by_cases h : pyClean s = ""
    · simp [h]
    · rw [if_neg h, if_neg h]
      cases hp : parseFloatChars (pyClean s).data with
      | some f => rfl
      | none => rfl
  | null => rfl
  | num q => rfl
  | bool b => rfl
  | arr l => rfl
  | obj l => rfl

/-- The stated value of a coerced field is the specification coercion. -/
theorem parseOk_eq (data : List (String × JsonValue)) (k : String) :
    parseOk data k = coerceSpec (jget data k) := by
  simp [parseOk, parse_float_eq]

/-- Sequential field coercion never raises and produces exactly the
per-field coercions. -/
theorem normFieldsGo_eq (data : List (String × JsonValue)) (ks : List String) :
    normFieldsGo data ks = Except.ok (ks.map fun k => (k, parseOk data k)) := by
  induction ks with
  | nil => rfl
  | cons k ks ih =>
    simp only [normFieldsGo, parse_float_eq, ih, List.map_cons]
    simp [parseOk_eq]

/-- Normalization of the 54 fields always succeeds. -/
theorem normalizeFields_eq (data : List (String × JsonValue)) :
    normalizeFields data = Except.ok (fieldVals data) :=
  normFieldsGo_eq data fieldNames

/-- A parse that does not take the `inf`/`infinity`/`nan` branch yields a
finite value. -/
theorem finite_of_not_special (s : String) (pf : PyFloat)
    (h : parseFloatChars s.data = some pf) (hs : isSpecialLit s = false) :
    pf.isFinite = true := by
  simp only [parseFloatChars] at h
  simp only [isSpecialLit] at hs
  rcases hsp : signSplit s.data with ⟨neg, r⟩
  rw [hsp] at h hs
  simp only [Bool.or_eq_false_iff, decide_eq_false_iff_not] at hs
  obtain ⟨⟨h1, h2⟩, h3⟩ := hs
  rw [if_neg (not_or.mpr ⟨h1, h2⟩), if_neg h3] at h
  cases hq : parseDecFrom r with
  | none => rw [hq] at h; cases h
  | some q =>
    rw [hq] at h
    injection h with h'
    rw [← h']
    rfl

/-- A specification coercion that is not a special literal is finite. -/
theorem coerce_finite : ∀ (v : JsonValue) (pf : PyFloat),
    coerceSpec v = some pf → isSpecialLit (cleanOf v) = false → pf.isFinite = true
  | JsonValue.str s, pf => by
    intro h hs
    simp only [coerceSpec] at h
    by_cases he : pyClean s = ""
    · rw [if_pos he] at h; cases h
    · rw [if_neg he] at h
      exact finite_of_not_special (pyClean s) pf h hs
  | JsonValue.null, _ => by intro h _; exact Option.noConfusion h
  | JsonValue.num _, _ => by intro h _; exact Option.noConfusion h
  | JsonValue.bool _, _ => by intro h _; exact Option.noConfusion h
  | JsonValue.arr _, _ => by intro h _; exact Option.noConfusion h
  | JsonValue.obj _, _ => by intro h _; exact Option.noConfusion h

/-- Membership through descending insertion. -/
theorem mem_insertDesc (y r : Row) (l : List Row) :
    y ∈ insertDesc r l ↔ y = r ∨ y ∈ l := by
  induction l with
  | nil => simp [insertDesc]
  | cons x xs ih =>
    simp only [insertDesc]
    by_cases hx : x.createdAt ≤ r.createdAt
    · rw [if_pos hx]
      simp [List.mem_cons]
    · rw [if_neg hx]
      simp only [List.mem_cons, ih]
      tauto

/-- Descending insertion preserves the newest-first ordering. -/
theorem pairwise_insertDesc (r : Row) (l : List Row) (h : l.Pairwise rowGe) :
    (insertDesc r l).Pairwise rowGe := by
  induction l with
  | nil => simp [insertDesc, rowGe]
  | cons x xs ih =>
    simp only [insertDesc]
    rcases List.pairwise_cons.mp h with ⟨hhead, htail⟩
    by_cases hx : x.createdAt ≤ r.createdAt
    · rw [if_pos hx]
      refine List.pairwise_cons.mpr ⟨?_, h⟩
      intro y hy
      rcases List.mem_cons.mp hy with hy1 | hy2
      · rw [hy1]; exact hx
      · exact le_trans (hhead y hy2) hx
    · rw [if_neg hx]
      refine List.pairwise_cons.mpr ⟨?_, ih htail⟩
      intro y hy
      rcases (mem_insertDesc y r xs).mp hy with hy1 | hy2
      · rw [hy1]; exact (not_le.mp hx).le
      · exact hhead y hy2

/-- The sort is newest-first. -/
theorem sortDesc_pairwise (l : List Row) : (sortDesc l).Pairwise rowGe := by
  induction l with
  | nil => simp [sortDesc]
  | cons r rs ih =>
    simp only [sortDesc]
    exact pairwise_insertDesc r _ ih

/-- The sort is a permutation as far as membership is concerned. -/
theorem mem_sortDesc (y : Row) (l : List Row) : y ∈ sortDesc l ↔ y ∈ l := by
  induction l with
  | nil => simp [sortDesc]
  | cons r rs ih =>
    simp only [sortDesc]
    rw [mem_insertDesc]
    simp [ih, List.mem_cons]

/-- A row returned by the development query satisfies every generated
predicate. -/
theorem getData_mem (store : List Row) (args : GetArgs) (r : Row)
    (hr : r ∈ ((getData store args).2).rows) :
    ∃ conds, buildQuery args = Except.ok conds ∧ r ∈ store ∧
      (conds.all fun c => Cond.eval c r) = true := by
  cases hb : buildQuery args with
  | error msg => simp [getData, hb, GetResult.rows] at hr
  | ok conds =>
    refine ⟨conds, rfl, ?_⟩
    simp only [getData, hb, GetResult.rows] at hr
    have h1 : r ∈ sortDesc (store.filter fun x => conds.all fun c => Cond.eval c x) :=
      ((List.take_sublist _ _).trans (List.drop_sublist _ _)).subset hr
    have h2 := (mem_sortDesc r _).mp h1
    have h3 := List.mem_filter.mp h2
    exact ⟨h3.1, h3.2⟩

/-- The truthy device filter contributes its predicate. -/
theorem buildQuery_device (a : GetArgs) (conds : List Cond) (d : String)
    (hb : buildQuery a = Except.ok conds) (hd : a.device_id = some d) (hne : d ≠ "") :
    Cond.deviceEq d ∈ conds := by
  simp only [buildQuery] at hb
  cases h1 : dateFilter Cond.createdGe startMsg a.start_date with
  | error e => rw [h1] at hb; cases hb
  | ok sc =>
    rw [h1] at hb
    cases h2 : dateFilter Cond.createdLe endMsg a.end_date with
    | error e => rw [h2] at hb; cases hb
    | ok ec =>
      rw [h2] at hb
      injection hb with hb'
      rw [← hb']
      have hdev : deviceConds a.device_id = [Cond.deviceEq d] := by
        rw [hd]
        simp only [deviceConds]
        rw [if_neg hne]
      rw [hdev]
      simp

/-- A parse of the empty string fails. -/
theorem pyFromIso_empty : pyFromIso (replaceZ "") = none := rfl

/-- A well-formed start filter contributes its lower-bound predicate. -/
theorem buildQuery_start (a : GetArgs) (conds : List Cond) (s : String) (t : ℚ)
    (hb : buildQuery a = Except.ok conds) (hs : a.start_date = some s)
    (ht : pyFromIso (replaceZ s) = some t) :
    Cond.createdGe t ∈ conds := by
  have hne : s ≠ "" := by
    intro he
    rw [he, pyFromIso_empty] at ht
    cases ht
  simp only [buildQuery] at hb
  have h1 : dateFilter Cond.createdGe startMsg a.start_date =
      Except.ok [Cond.createdGe t] := by
    rw [hs]
    simp only [dateFilter]
    rw [if_neg hne, ht]
  rw [h1] at hb
  cases h2 : dateFilter Cond.createdLe endMsg a.end_date with
  | error e => rw [h2] at hb; cases hb
  | ok ec =>
    rw [h2] at hb
    injection hb with hb'
    rw [← hb']
    simp

/-- A well-formed end filter contributes its upper-bound predicate. -/
theorem buildQuery_end (a : GetArgs) (conds : List Cond) (e : String) (t : ℚ)
    (hb : buildQuery a = Except.ok conds) (he : a.end_date = some e)
    (ht : pyFromIso (replaceZ e) = some t) :
    Cond.createdLe t ∈ conds := by
  have hne : e ≠ "" := by
    intro hee
    rw [hee, pyFromIso_empty] at ht
    cases ht
  simp only [buildQuery] at hb
  cases h1 : dateFilter Cond.createdGe startMsg a.start_date with
  | error e2 => rw [h1] at hb; cases hb
  | ok sc =>
    rw [h1] at hb
    have h2 : dateFilter Cond.createdLe endMsg a.end_date =
        Except.ok [Cond.createdLe t] := by
      rw [he]
      simp only [dateFilter]
      rw [if_neg hne, ht]
    rw [h2] at hb
    injection hb with hb'
    rw [← hb']
    simp

/-- The device fragment of the WHERE text, as a function of presence only. -/
theorem deviceConds_sql (o : Option String) :
    (deviceConds o).map Cond.sql =
      (if devPresentO o then ["DeviceId = %s"] else []) := by
  cases o with
  | none => rfl
  | some d =>
    by_cases hd : d = ""
    · simp [deviceConds, devPresentO, hd]
    · simp [deviceConds, devPresentO, hd, Cond.sql]

/-- The date fragment of the WHERE text, as a function of presence only. -/
theorem dateFilter_sql (mk : ℚ → Cond) (txt msg : String) (o : Option String)
    (sc : List Cond) (hmk : ∀ t, (mk t).sql = txt)
    (h : dateFilter mk msg o = Except.ok sc) :
    sc.map Cond.sql = (if datePresentO o then [txt] else []) := by
  cases o with
  | none =>
    injection h with h'
    rw [← h']
    rfl
  | some s =>
    simp only [dateFilter] at h
    by_cases hse : s = ""
    · rw [if_pos hse] at h
      injection h with h'
      rw [← h']
      simp [datePresentO, hse]
    · rw [if_neg hse] at h
      cases hp : pyFromIso (replaceZ s) with
      | none => rw [hp] at h; cases h
      | some t =>
        rw [hp] at h
        injection h with h'
        rw [← h']
        simp [datePresentO, hse, hp, hmk]

/-- The WHERE texts of a successful query build depend only on which
filters are present. -/
theorem buildQuery_sql (a : GetArgs) (conds : List Cond)
    (hb : buildQuery a = Except.ok conds) :
    conds.map Cond.sql =
      (if devPresentO a.device_id then ["DeviceId = %s"] else []) ++
      (if datePresentO a.start_date then ["CreatedAt >= %s"] else []) ++
      (if datePresentO a.end_date then ["CreatedAt <= %s"] else []) := by
  simp only [buildQuery] at hb
  cases h1 : dateFilter Cond.createdGe startMsg a.start_date with
  | error e => rw [h1] at hb; cases hb
  | ok sc =>
    rw [h1] at hb
    cases h2 : dateFilter Cond.createdLe endMsg a.end_date with
    | error e => rw [h2] at hb; cases hb
    | ok ec =>
      rw [h2] at hb
      injection hb with hb'
      rw [← hb', List.map_append, List.map_append, deviceConds_sql,
        dateFilter_sql Cond.createdGe "CreatedAt >= %s" startMsg a.start_date sc
          (fun t => rfl) h1,
        dateFilter_sql Cond.createdLe "CreatedAt <= %s" endMsg a.end_date ec
          (fun t => rfl) h2]

/-- The SQL texts emitted by a successful development query. -/
theorem getData_texts (store : List Row) (a : GetArgs) (conds : List Cond)
    (hb : buildQuery a = Except.ok conds) :
    eventsSqlTexts (getData store a).1 = [countSqlOf conds, dataSqlOf conds] := by
  simp [getData, hb, eventsSqlTexts]

/-- The production column list depends only on which fields are present. -/
theorem colsCongr (f g : String → Option PyFloat) (ks : List String)
    (h : ∀ k ∈ ks, (f k).isSome = (g k).isSome) :
    ((ks.map fun k => (k, f k)).filter fun kv => kv.2.isSome).map (fun kv => kv.1) =
      ((ks.map fun k => (k, g k)).filter fun kv => kv.2.isSome).map (fun kv => kv.1) := by
  induction ks with
  | nil => rfl
  | cons k ks ih =>
    have hk := h k (List.mem_cons_self k ks)
    have ht := ih (fun x hx => h x (List.mem_cons_of_mem _ hx))
    cases hfk : (f k).isSome with
    | false =>
      have hgk : (g k).isSome = false := by rw [← hk]; exact hfk
      simp [List.filter_cons, hfk, hgk, ht]
    | true =>
      have hgk : (g k).isSome = true := by rw [← hk]; exact hfk
      simp [List.filter_cons, hfk, hgk, ht]

/-- Column lists of two payloads with the same presence pattern agree. -/
theorem fieldValsColsCongr (d1 d2 : List (String × JsonValue))
    (h : ∀ k ∈ fieldNames, (parseOk d1 k).isSome = (parseOk d2 k).isSome) :
    prodCols (fieldVals d1) = prodCols (fieldVals d2) :=
  congrArg (fun c => "DeviceId" :: c)
    (colsCongr (fun k => parseOk d1 k) (fun k => parseOk d2 k) fieldNames h)

/-- The production insert text is a function of the column list. -/
theorem prodInsertSql_congr (f1 f2 : List (String × Option PyFloat))
    (h : prodCols f1 = prodCols f2) : prodInsertSql f1 = prodInsertSql f2 := by
  simp only [prodInsertSql, h]

/-- C1: the ingestion coercion follows exactly the claimed steps — absent
or non-string raw values map to absent, otherwise the placeholder token is
removed and whitespace trimmed, an empty remainder maps to absent, and a
failing float parse maps to absent rather than an error; in particular
`"$$12.5$$"` coerces to 12.5 and `"$$   $$"` coerces to absent. -/
theorem claim1_coercion :
    (∀ v : JsonValue, parse_float v = Except.ok (coerceSpec v)) ∧
    parse_float (JsonValue.str "$$12.5$$") =
      Except.ok (some (PyFloat.finite (25 / 2))) ∧
    parse_float (JsonValue.str "$$   $$") = Except.ok none := by
  refine ⟨parse_float_eq, ?_, rfl⟩
  rw [parse_float_eq]
  have h1 : coerceSpec (JsonValue.str "$$12.5$$") =
      some (PyFloat.finite (mantVal [1, 2] [5])) := rfl
  have h2 : mantVal [1, 2] [5] = 25 / 2 := by
    norm_num [mantVal, digitsVal]
  rw [h1, h2]

/-- C10: `parse_float` is total — on every JSON value of any type it
terminates and returns a value (absent or a float) without raising. -/
theorem claim10_parse_total (v : JsonValue) :
    ∃ r : Option PyFloat, parse_float v = Except.ok r :=
  ⟨coerceSpec v, parse_float_eq v⟩

/-- C2 (amended): normalization never fails for any payload, and —
provided no raw field's cleaned text spells an `inf`/`infinity`/`nan`
literal — every coerced field is a finite float or absent.  (The original
claim is refuted by `claim2_cex`: the code accepts `"nan"` and stores a
NaN value.) -/
theorem claim2_fields (data : List (String × JsonValue)) :
    normalizeFields data = Except.ok (fieldVals data) ∧
    ((∀ k ∈ fieldNames, isSpecialLit (cleanOf (jget data k)) = false) →
      ∀ kv ∈ fieldVals data, kv.2.all PyFloat.isFinite = true) := by
  constructor
  · exact normalizeFields_eq data
  · intro hspec kv hkv
    obtain ⟨k, hk, hkv'⟩ := List.mem_map.mp hkv
    rw [← hkv']
    show (parseOk data k).all PyFloat.isFinite = true
    rw [parseOk_eq]
    cases hv : coerceSpec (jget data k) with
    | none => rfl
    | some pf =>
      have hf := coerce_finite (jget data k) pf hv (hspec k hk)
      simp [Option.all_some, hf]

/-- C2 counterexample: for the payload with device id `FM-7` and
`FT1MassFlow = "nan"`, normalization succeeds and the coerced channel-1
mass flow is NaN — neither finite nor absent — refuting the claim that a
coerced field is always a finite float or absent. -/
theorem claim2_cex :
    parseOk dataNan "FT1MassFlow" = some PyFloat.nan ∧
    (some PyFloat.nan).all PyFloat.isFinite = false ∧
    normalizeFields dataNan = Except.ok (fieldVals dataNan) ∧
    ("FT1MassFlow", (some PyFloat.nan : Option PyFloat)) ∈ fieldVals dataNan :=
  ⟨rfl, rfl, normalizeFields_eq dataNan, by decide⟩

/-- C2 witness: on the specification's worked example payload the
hypotheses of `claim2_fields` hold and the coerced channel-1 mass flow is
a finite value. -/
theorem claim2_witness :
    (("FT1MassFlow", parseOk dataGood "FT1MassFlow") :
      String × Option PyFloat).2.all PyFloat.isFinite = true :=
  (claim2_fields dataGood).2 (by decide)
    ("FT1MassFlow", parseOk dataGood "FT1MassFlow")
    (List.mem_map.mpr ⟨"FT1MassFlow", by decide, rfl⟩)

/-- C3 (amended): in the development variant a requested page size below 1
or above 1000 falls back to the default 100 (it is not clamped to 1000),
so the effective page size always lies in [1, 1000]; in the production
limit variant the limit is clamped to at most 1000 from above but not from
below. -/
theorem claim3_pagination :
    (∀ ps : Int, 1 ≤ effPageSize ps ∧ effPageSize ps ≤ 1000) ∧
    (∀ ps : Int, ps < 1 ∨ 1000 < ps → effPageSize ps = 100) ∧
    (∀ l : Int, prodLimit l ≤ 1000) ∧
    (∀ l : Int, 1 ≤ l → 1 ≤ prodLimit l ∧ prodLimit l ≤ 1000) := by
  refine ⟨?_, ?_, ?_, ?_⟩
  · intro ps
    unfold effPageSize
    by_cases h : ps < 1 ∨ 1000 < ps
    · rw [if_pos h]; omega
    · rw [if_neg h]; push_neg at h; omega
  · intro ps h
    unfold effPageSize
    rw [if_pos h]
  · intro l
    exact min_le_right l 1000
  · intro l h
    exact ⟨le_min h (by norm_num), min_le_right l 1000⟩

/-- C3 counterexample: a requested page size of 1001 becomes 100, not the
claimed 1000 (visible in the endpoint's response), and in the limit
variant a requested limit of 0 stays 0, outside the claimed [1, 1000]. -/
theorem claim3_cex :
    effPageSize 1001 = 100 ∧ (100 : Int) ≠ 1000 ∧
    prodLimit 0 = 0 ∧ ¬(1 ≤ prodLimit 0) ∧
    (getData [] ⟨none, none, none, 1, 1001⟩).2 = GetResult.ok ⟨0, 1, 100, []⟩ :=
  ⟨rfl, by decide, rfl, by decide, rfl⟩

/-- C3 witness: concrete instantiations of `claim3_pagination`. -/
theorem claim3_witness :
    (1 ≤ effPageSize 5 ∧ effPageSize 5 ≤ 1000) ∧ effPageSize 1001 = 100 ∧
    prodLimit 2000 ≤ 1000 ∧ (1 ≤ prodLimit 7 ∧ prodLimit 7 ≤ 1000) :=
  ⟨claim3_pagination.1 5, claim3_pagination.2.1 1001 (Or.inr (by decide)),
   claim3_pagination.2.2.1 2000, claim3_pagination.2.2.2 7 (by decide)⟩

/-- C4 (amended): the upload validation rejects exactly the payloads whose
`deviceid` value is falsy (absent, null, empty string, zero, false, empty
container) with `Device ID is required` and no store interaction; every
truthy value — including non-string values — passes validation.  (The
original claim that every non-string device id is rejected is refuted by
`claim4_cex`.) -/
theorem claim4_device_validation (gid ts : String)
    (data : List (String × JsonValue)) :
    (data ≠ [] → pyTruthy (jget data "deviceid") = false →
      upload gid ts data = ([], UploadResult.badRequest "Device ID is required")) ∧
    (pyTruthy (jget data "deviceid") = true → (upload gid ts data).2.isOk = true) := by
  constructor
  · intro hne hfalse
    cases data with
    | nil => exact absurd rfl hne
    | cons a l => simp [upload, hfalse]
  · intro htrue
    cases data with
    | nil => exact absurd htrue (by decide)
    | cons a l =>
      simp [upload, htrue, normalizeFields_eq, UploadResult.isOk]

/-- C4 counterexample: the payload `{"deviceid": 7}` has a non-string
device identifier, yet validation passes and the upload succeeds — the
claim that non-string device ids fail with `MissingDeviceId` is false. -/
theorem claim4_cex :
    pyTruthy (jget [("deviceid", JsonValue.num 7)] "deviceid") = true ∧
    (upload "id0" "t0" [("deviceid", JsonValue.num 7)]).2.isBadRequest = false ∧
    (upload "id0" "t0" [("deviceid", JsonValue.num 7)]).2.isOk = true :=
  ⟨rfl, rfl, rfl⟩

/-- C4 witness: an empty-string device id is rejected with no store
interaction; a non-empty string device id passes. -/
theorem claim4_witness :
    upload "g" "t" [("deviceid", JsonValue.str "")] =
      ([], UploadResult.badRequest "Device ID is required") ∧
    (upload "g" "t" [("deviceid", JsonValue.str "FM-7")]).2.isOk = true :=
  ⟨(claim4_device_validation "g" "t" _).1 (List.cons_ne_nil _ _) rfl,
   (claim4_device_validation "g" "t" _).2 rfl⟩

/-- C5 (amended): a malformed (non-empty, unparsable) start or end
timestamp makes the query fail with the corresponding
`Invalid ..._date format` 400 message, and the store trace at that point
is exactly the opening of the connection — no statement has been executed.
(The original claim that no store interaction at all precedes the failure
is refuted by `claim5_cex`: the connection is opened before the dates are
validated.) -/
theorem claim5_date_validation :
    (∀ (store : List Row) (args : GetArgs) (s : String),
      args.start_date = some s → s ≠ "" → pyFromIso (replaceZ s) = none →
      getData store args = ([StoreEvent.connect], GetResult.badRequest startMsg)) ∧
    (∀ (store : List Row) (args : GetArgs) (e : String) (sc : List Cond),
      dateFilter Cond.createdGe startMsg args.start_date = Except.ok sc →
      args.end_date = some e → e ≠ "" → pyFromIso (replaceZ e) = none →
      getData store args = ([StoreEvent.connect], GetResult.badRequest endMsg)) := by
  constructor
  · intro store args s hs hne hp
    have h1 : dateFilter Cond.createdGe startMsg args.start_date =
        Except.error startMsg := by
      rw [hs]
      simp only [dateFilter]
      rw [if_neg hne, hp]
    simp [getData, buildQuery, h1]
  · intro store args e sc h1 he hne hp
    have h2 : dateFilter Cond.createdLe endMsg args.end_date =
        Except.error endMsg := by
      rw [he]
      simp only [dateFilter]
      rw [if_neg hne, hp]
    simp [getData, buildQuery, h1, h2]

/-- C5 counterexample: for `start_date = "not-a-date"` the endpoint does
return 400, but the store trace already contains the connection event —
an interaction with the backing store happened before the validation
failure, refuting the claim that none occurs. -/
theorem claim5_cex :
    getData [] ⟨none, some "not-a-date", none, 1, 100⟩ =
      ([StoreEvent.connect],
        GetResult.badRequest "Invalid start_date format. Use ISO format.") ∧
    StoreEvent.connect ∈ (getData [] ⟨none, some "not-a-date", none, 1, 100⟩).1 :=
  ⟨rfl, List.mem_singleton.mpr rfl⟩

/-- C5 witness: concrete malformed start and end dates each yield the 400
with a trace holding only the connection event. -/
theorem claim5_witness :
    getData [] ⟨none, some "2024-13-01", none, 1, 100⟩ =
      ([StoreEvent.connect], GetResult.badRequest startMsg) ∧
    getData [] ⟨some "FM-7", none, some "nope", 3, 10⟩ =
      ([StoreEvent.connect], GetResult.badRequest endMsg) :=
  ⟨claim5_date_validation.1 [] _ "2024-13-01" rfl (by decide) rfl,
   claim5_date_validation.2 [] _ "nope" [] rfl rfl (by decide) rfl⟩

/-- C6: the SQL statement texts are functions of which filters/fields are
present only — two query argument sets with the same presence pattern
generate identical statement texts, two upload payloads with the same
field-presence pattern generate identical insert texts (development
inserts use one fixed text), and all values travel as bound parameters. -/
theorem claim6_sql_text_stable :
    (∀ (store1 store2 : List Row) (a1 a2 : GetArgs) (cs1 cs2 : List Cond),
      buildQuery a1 = Except.ok cs1 → buildQuery a2 = Except.ok cs2 →
      devPresentO a1.device_id = devPresentO a2.device_id →
      datePresentO a1.start_date = datePresentO a2.start_date →
      datePresentO a1.end_date = datePresentO a2.end_date →
      eventsSqlTexts (getData store1 a1).1 = eventsSqlTexts (getData store2 a2).1) ∧
    (∀ (ts1 ts2 : String) (d1 d2 : List (String × JsonValue)),
      pyTruthy (jget d1 "deviceid") = true → pyTruthy (jget d2 "deviceid") = true →
      (∀ k ∈ fieldNames, (parseOk d1 k).isSome = (parseOk d2 k).isSome) →
      eventsSqlTexts (prodUpload ts1 d1).1 = eventsSqlTexts (prodUpload ts2 d2).1) ∧
    (∀ (gid ts : String) (data : List (String × JsonValue)),
      pyTruthy (jget data "deviceid") = true →
      eventsSqlTexts (upload gid ts data).1 = [appInsertSql]) := by
  refine ⟨?_, ?_, ?_⟩
  · intro store1 store2 a1 a2 cs1 cs2 h1 h2 hd hs he
    rw [getData_texts store1 a1 cs1 h1, getData_texts store2 a2 cs2 h2]
    have hmap : cs1.map Cond.sql = cs2.map Cond.sql := by
      rw [buildQuery_sql a1 cs1 h1, buildQuery_sql a2 cs2 h2, hd, hs, he]
    simp [countSqlOf, dataSqlOf, hmap]
  · intro ts1 ts2 d1 d2 h1 h2 hsame
    cases d1 with
    | nil => exact absurd h1 (by decide)
    | cons x l1 =>
      cases d2 with
      | nil => exact absurd h2 (by decide)
      | cons y l2 =>
        simp [prodUpload, h1, h2, normalizeFields_eq, eventsSqlTexts]
        exact prodInsertSql_congr _ _ (fieldValsColsCongr _ _ hsame)
  · intro gid ts data htrue
    cases data with
    | nil => exact absurd htrue (by decide)
    | cons x l =>
      simp [upload, htrue, normalizeFields_eq, eventsSqlTexts]

/-- C6 witness: different device values, different field values and
different payload values produce identical statement texts. -/
theorem claim6_witness :
    eventsSqlTexts (getData [] ⟨some "D1", none, none, 1, 100⟩).1 =
      eventsSqlTexts (getData [] ⟨some "D2", none, none, 2, 50⟩).1 ∧
    eventsSqlTexts (prodUpload "t1"
        [("deviceid", JsonValue.str "A"), ("FT1MassFlow", JsonValue.str "1.5")]).1 =
      eventsSqlTexts (prodUpload "t2"
        [("deviceid", JsonValue.str "B"), ("FT1MassFlow", JsonValue.str "2.75")]).1 ∧
    eventsSqlTexts (upload "g" "t" [("deviceid", JsonValue.str "FM-7")]).1 =
      [appInsertSql] :=
  ⟨claim6_sql_text_stable.1 [] [] _ _ [Cond.deviceEq "D1"] [Cond.deviceEq "D2"]
      rfl rfl rfl rfl rfl,
   claim6_sql_text_stable.2.1 "t1" "t2" _ _ rfl rfl (by decide),
   claim6_sql_text_stable.2.2 "g" "t" _ rfl⟩

/-- C7: both query variants return rows in non-increasing creation-time
order — every returned sequence is pairwise newest-first. -/
theorem claim7_order_desc :
    (∀ (store : List Row) (args : GetArgs),
      ((getData store args).2.rows).Pairwise rowGe) ∧
    (∀ (store : List Row) (d : Option String) (l : Int),
      ((prodGetData store d l).2.data).Pairwise rowGe) := by
  constructor
  · intro store args
    cases hb : buildQuery args with
    | error msg => simp [getData, hb, GetResult.rows]
    | ok conds =>
      simp only [getData, hb, GetResult.rows]
      exact List.Pairwise.sublist
        ((List.take_sublist _ _).trans (List.drop_sublist _ _)) (sortDesc_pairwise _)
  · intro store d l
    cases d with
    | none =>
      simp only [prodGetData, prodNoFilter]
      exact List.Pairwise.sublist (List.take_sublist _ _) (sortDesc_pairwise _)
    | some dv =>
      by_cases hd : dv = ""
      · simp only [prodGetData]
        rw [if_pos hd]
        simp only [prodNoFilter]
        exact List.Pairwise.sublist (List.take_sublist _ _) (sortDesc_pairwise _)
      · simp only [prodGetData]
        rw [if_neg hd]
        exact List.Pairwise.sublist (List.take_sublist _ _) (sortDesc_pairwise _)

/-- C8: each supplied filter contributes exactly one parameterized
predicate, AND-joined, absent filters contribute nothing, and every
returned row satisfies every supplied filter (both variants). -/
theorem claim8_filters_conjunctive :
    (∀ (store : List Row) (args : GetArgs) (r : Row),
      r ∈ ((getData store args).2).rows →
      (∀ d, args.device_id = some d → d ≠ "" → r.deviceId = d) ∧
      (∀ s t, args.start_date = some s → pyFromIso (replaceZ s) = some t →
        t ≤ r.createdAt) ∧
      (∀ e t, args.end_date = some e → pyFromIso (replaceZ e) = some t →
        r.createdAt ≤ t)) ∧
    (∀ (d : String) (t1 t2 : ℚ) (p ps : Int) (s e : String),
      d ≠ "" → pyFromIso (replaceZ s) = some t1 → pyFromIso (replaceZ e) = some t2 →
      buildQuery ⟨some d, some s, some e, p, ps⟩ =
        Except.ok [Cond.deviceEq d, Cond.createdGe t1, Cond.createdLe t2]) ∧
    joinWhere ([Cond.deviceEq "D", Cond.createdGe 0, Cond.createdLe 1].map Cond.sql) =
      "WHERE DeviceId = %s AND CreatedAt >= %s AND CreatedAt <= %s" ∧
    (∀ p ps : Int, buildQuery ⟨none, none, none, p, ps⟩ = Except.ok []) ∧
    (∀ (store : List Row) (d : String) (l : Int) (r : Row),
      r ∈ (prodGetData store (some d) l).2.data → d ≠ "" → r.deviceId = d) := by
  refine ⟨?_, ?_, ?_, ?_, ?_⟩
  · intro store args r hr
    rcases getData_mem store args r hr with ⟨conds, hb, _, hall⟩
    refine ⟨?_, ?_, ?_⟩
    · intro d hd hne
      have hc := buildQuery_device args conds d hb hd hne
      exact of_decide_eq_true (List.all_eq_true.mp hall _ hc)
    · intro s t hs ht
      have hc := buildQuery_start args conds s t hb hs ht
      exact of_decide_eq_true (List.all_eq_true.mp hall _ hc)
    · intro e t he ht
      have hc := buildQuery_end args conds e t hb he ht
      exact of_decide_eq_true (List.all_eq_true.mp hall _ hc)
  · intro d t1 t2 p ps s e hne h1 h2
    have hs' : s ≠ "" := by
      intro hse
      rw [hse, pyFromIso_empty] at h1
      cases h1
    have he' : e ≠ "" := by
      intro hee
      rw [hee, pyFromIso_empty] at h2
      cases h2
    have hdf1 : dateFilter Cond.createdGe startMsg (some s) =
        Except.ok [Cond.createdGe t1] := by
      simp only [dateFilter]
      rw [if_neg hs', h1]
    have hdf2 : dateFilter Cond.createdLe endMsg (some e) =
        Except.ok [Cond.createdLe t2] := by
      simp only [dateFilter]
      rw [if_neg he', h2]
    simp [buildQuery, hdf1, hdf2, deviceConds, hne]
  · rfl
  · intro p ps
    rfl
  · intro store d l r hr hne
    simp only [prodGetData] at hr
    rw [if_neg hne] at hr
    have h1 : r ∈ sortDesc (store.filter fun x => decide (x.deviceId = d)) :=
      (List.take_sublist _ _).subset hr
    have h2 := (mem_sortDesc r _).mp h1
    exact of_decide_eq_true (List.mem_filter.mp h2).2

/-- C8 witness: the device filter is honored on a concrete store, a fully
supplied filter set builds exactly the three AND-joined predicates, and an
empty filter set builds none. -/
theorem claim8_witness :
    Row.deviceId ⟨"i1", "D", 5⟩ = "D" ∧
    buildQuery ⟨some "D", some "2024-01-02", some "2024-01-03", 1, 100⟩ =
      Except.ok [Cond.deviceEq "D",
        Cond.createdGe (((20240102 : ℕ) : ℚ) * 1000000),
        Cond.createdLe (((20240103 : ℕ) : ℚ) * 1000000)] ∧
    buildQuery ⟨none, none, none, 7, 8⟩ = Except.ok [] ∧
    Row.deviceId ⟨"p1", "P", 1⟩ = "P" :=
  ⟨(claim8_filters_conjunctive.1 w8store w8args ⟨"i1", "D", 5⟩ (by decide)).1
      "D" rfl (by decide),
   claim8_filters_conjunctive.2.1 "D" (((20240102 : ℕ) : ℚ) * 1000000)
      (((20240103 : ℕ) : ℚ) * 1000000) 1 100
      "2024-01-02" "2024-01-03" (by decide) rfl rfl,
   claim8_filters_conjunctive.2.2.2.1 7 8,
   claim8_filters_conjunctive.2.2.2.2 [⟨"p1", "P", 1⟩] "P" 10 ⟨"p1", "P", 1⟩
      (by decide) (by decide)⟩

/-- C9 (amended): a successful development upload returns the generated
record id, the device id and a timestamp in its 200 body; a successful
production upload returns the device id and a timestamp but no record id
(the id is generated inside the store).  (The original claim that every
successful upload's body includes the generated id is refuted by
`claim9_cex`.) -/
theorem claim9_upload_response :
    (∀ (gid ts : String) (data : List (String × JsonValue)),
      pyTruthy (jget data "deviceid") = true →
      (upload gid ts data).2.isOk = true ∧
      (upload gid ts data).2.bodyLookup "id" = some (JsonValue.str gid) ∧
      (upload gid ts data).2.bodyLookup "device_id" = some (jget data "deviceid") ∧
      (upload gid ts data).2.bodyLookup "timestamp" = some (JsonValue.str ts)) ∧
    (∀ (ts : String) (data : List (String × JsonValue)),
      pyTruthy (jget data "deviceid") = true →
      (prodUpload ts data).2.isOk = true ∧
      (prodUpload ts data).2.bodyLookup "device_id" = some (jget data "deviceid") ∧
      (prodUpload ts data).2.bodyLookup "timestamp" = some (JsonValue.str ts) ∧
      (prodUpload ts data).2.bodyLookup "id" = none) := by
  constructor
  · intro gid ts data h
    cases data with
    | nil => exact absurd h (by decide)
    | cons x l =>
      simp [upload, h, normalizeFields_eq, UploadResult.isOk,
        UploadResult.bodyLookup, appUploadBody, List.lookup]
  · intro ts data h
    cases data with
    | nil => exact absurd h (by decide)
    | cons x l =>
      simp [prodUpload, h, normalizeFields_eq, UploadResult.isOk,
        UploadResult.bodyLookup, prodUploadBody, List.lookup]

/-- C9 counterexample: a successful production upload whose 200 body has
no `id` key at all — the claim that every successful upload's body
includes the generated record id is false for the production variant. -/
theorem claim9_cex :
    (prodUpload "t0" [("deviceid", JsonValue.str "FM-7")]).2.isOk = true ∧
    (prodUpload "t0" [("deviceid", JsonValue.str "FM-7")]).2.bodyLookup "id" =
      none :=
  ⟨rfl, rfl⟩

/-- C9 witness: concrete successful uploads in both variants with the
amended body contents. -/
theorem claim9_witness :
    (upload "g" "t" [("deviceid", JsonValue.str "FM-7")]).2.bodyLookup "id" =
      some (JsonValue.str "g") ∧
    (prodUpload "t" [("deviceid", JsonValue.str "FM-7")]).2.bodyLookup "timestamp" =
      some (JsonValue.str "t") :=
  ⟨(claim9_upload_response.1 "g" "t" [("deviceid", JsonValue.str "FM-7")] rfl).2.1,
   (claim9_upload_response.2 "t" [("deviceid", JsonValue.str "FM-7")] rfl).2.2.1⟩

end Scada
